import Mathlib

/-!
Shallow embedding of `src/netlify/functions/index.js`: a minimal Express +
Sequelize CRUD API with one entity (`User`), one body-normalizing middleware
mounted on `/api`, a `POST /newUser` handler and a `GET /allUsers` handler.

The database is modelled as an explicit `Store` value threaded through the
handlers; Sequelize model validation (`notEmpty`, `isEmail`) and the unique
constraint on `email` are modelled inside `User.create`, mirroring the order
in which Sequelize applies them (model validators run before the INSERT that
would hit the unique index).
-/

/-- A row of the `users` table as declared by `DATA_BASE.define`:
`id` (integer, autoIncrement primary key), `name`, `email`, `phone` (strings),
plus the `createdAt` / `updatedAt` timestamps added by `timestamps: true`.
Timestamps are modelled as naturals from a logical clock. -/
structure User where
  id : Nat
  name : String
  email : String
  phone : String
  createdAt : Nat
  updatedAt : Nat
deriving Repr, DecidableEq

/-- The relational store backing the `User` model: the rows of the `users`
table, the auto-increment counter for `id`, and a logical clock used to stamp
`createdAt` / `updatedAt` on insert. -/
structure Store where
  rows : List User
  nextId : Nat
  now : Nat
deriving Repr, DecidableEq

/-- Modelled from the spec: the email "must match an email-address shape"
(`validate: isEmail` delegates to a third-party validator whose code is not
part of this repository). We model the standard pattern: exactly one `@`,
a non-empty local part, a non-empty domain containing a dot, and no
whitespace anywhere. -/
def isEmail (s : String) : Bool :=
  let cs := s.data
  let lp := cs.takeWhile (fun c => !decide (c = '@'))
  let rest := cs.dropWhile (fun c => !decide (c = '@'))
  match rest with
  | [] => false
  | _ :: domain =>
    !lp.isEmpty && !domain.isEmpty && !domain.contains '@' &&
      domain.contains '.' && !cs.any Char.isWhitespace

/-- Message produced when the `isEmail` validator on `email` fails. -/
def isEmailMsg : String := "Validation isEmail on email failed"

/-- Message produced when the `notEmpty` validator on a field fails. -/
def notEmptyMsg (field : String) : String :=
  "Validation notEmpty on " ++ field ++ " failed"

/-- The Sequelize model validators declared on `User`, run in attribute order
(`name`, `email`, `phone`) and, per attribute, in declaration order
(`isEmail` before `notEmpty` on `email`): the list of failure messages. -/
def validationErrors (name email phone : String) : List String :=
  (if name = "" then [notEmptyMsg "name"] else []) ++
  (if isEmail email then [] else [isEmailMsg]) ++
  (if email = "" then [notEmptyMsg "email"] else []) ++
  (if phone = "" then [notEmptyMsg "phone"] else [])

/-- The ways `User.create` can reject a row: `SequelizeUniqueConstraintError`
(the unique index on `email`) or `SequelizeValidationError` (the model
validators, carrying the list of failure messages). -/
inductive CreateError where
  | uniqueViolation
  | validationFailure (messages : List String)
deriving Repr, DecidableEq

/-- `User.create({name, email, phone})`: run the model validators; if they
pass, insert the row unless the unique index on `email` rejects it. A new row
gets the next auto-increment `id` and both timestamps from the clock. -/
def User.create (st : Store) (name email phone : String) :
    Except CreateError User × Store :=
  let errs := validationErrors name email phone
  if !errs.isEmpty then
    (.error (.validationFailure errs), st)
  else if st.rows.any (fun r => decide (r.email = email)) then
    (.error .uniqueViolation, st)
  else
    let row : User :=
      { id := st.nextId, name := name, email := email, phone := phone,
        createdAt := st.now, updatedAt := st.now }
    (.ok row,
      { rows := st.rows ++ [row], nextId := st.nextId + 1, now := st.now + 1 })

/-- `User.findAll` with the six selected attributes and order by `createdAt` DESC:
every row of the table, ordered by `createdAt` descending. -/
def User.findAll (st : Store) : List User :=
  st.rows.mergeSort (fun a b => decide (b.createdAt ≤ a.createdAt))

/-- The request body as the `POST /newUser` handler destructures it:
the `name`, `email` and `phone` properties, each possibly absent. -/
structure Body where
  name : Option String
  email : Option String
  phone : Option String
deriving Repr, DecidableEq

/-- The empty object the middleware substitutes for blank or absent bodies. -/
def emptyBody : Body := { name := none, email := none, phone := none }

/-- JavaScript truthiness of a destructured string property: `undefined` and
the empty string are falsy. -/
def truthy : Option String → Bool
  | none => false
  | some s => !decide (s = "")

/-- The possible JSON response bodies of the modelled routes. -/
inductive RespBody where
  | malformed
  | missingFields (name email phone : Option String)
  | created (user : User)
  | duplicateEmail
  | validationDetails (details : List String)
  | userList (count : Nat) (users : List User)
  | greeting
  | notFound
deriving Repr, DecidableEq

/-- An HTTP response: status code and JSON body. -/
structure Response where
  status : Nat
  body : RespBody
deriving Repr, DecidableEq

/-- The `POST /newUser` handler: destructure `{name, email, phone}` from the
body; if any is falsy respond 400 echoing the received values; otherwise call
`User.create`, mapping success to 201, `SequelizeUniqueConstraintError` to
409 and `SequelizeValidationError` to 400 with the error messages. -/
def newUser (st : Store) (b : Body) : Response × Store :=
  if !truthy b.name || !truthy b.email || !truthy b.phone then
    ({ status := 400, body := .missingFields b.name b.email b.phone }, st)
  else
    match User.create st (b.name.getD "") (b.email.getD "") (b.phone.getD "") with
    | (.ok row, st') => ({ status := 201, body := .created row }, st')
    | (.error .uniqueViolation, st') =>
        ({ status := 409, body := .duplicateEmail }, st')
    | (.error (.validationFailure msgs), st') =>
        ({ status := 400, body := .validationDetails msgs }, st')

/-- The `GET /allUsers` handler: `findAll`, then 200 with
`count = users.length` and the users. It does not modify the store. -/
def allUsers (st : Store) : Response :=
  let users := User.findAll st
  { status := 200, body := .userList users.length users }

/-- The inbound body representation as `serverless-http` can hand it to the
middleware: a raw byte buffer (identified with its UTF-8 decoding, since
the UTF-8 decoding done by `Buffer.toString` is total), a string, an
already-structured object,
or absent. -/
inductive RawBody where
  | buffer (utf8 : String)
  | str (s : String)
  | obj (b : Body)
  | absent
deriving Repr, DecidableEq

/-- JavaScript truthiness of `req.body`: `undefined` and the empty string are
falsy; objects (buffers included) are always truthy. -/
def RawBody.truthy : RawBody → Bool
  | .absent => false
  | .str s => !decide (s = "")
  | .buffer _ => true
  | .obj _ => true

/-- The `methodsWithBody` list of the middleware. -/
def methodsWithBody : List String := ["POST", "PUT", "PATCH"]

/-- JavaScript truthiness of `bodyString.trim()`: true iff some character of
the decoded text is not whitespace. -/
def hasContent (s : String) : Bool := s.data.any (fun c => !c.isWhitespace)

/-- Outcome of the body middleware: pass the (possibly replaced) body on to
the router, or answer 400 because JSON parsing failed. -/
inductive NormResult where
  | pass (body : RawBody)
  | malformed
deriving Repr, DecidableEq

/-- The custom middleware mounted with `app.use` on `/api`. `parse` stands for
`JSON.parse` restricted to the destructured properties: `none` models a
thrown `SyntaxError`. For POST/PUT/PATCH with a buffer body: decode, parse
when the trimmed text is non-blank (failure answers 400), substitute the
empty object when blank. For POST/PUT/PATCH with a falsy body: substitute
the empty object. Everything else passes through unchanged. -/
def bodyMiddleware (parse : String → Option Body) (method : String)
    (body : RawBody) : NormResult :=
  if methodsWithBody.contains method then
    match body with
    | .buffer s =>
      if hasContent s then
        match parse s with
        | some b => .pass (.obj b)
        | none => .malformed
      else .pass (.obj emptyBody)
    | other =>
      if other.truthy then .pass other else .pass (.obj emptyBody)
  else .pass body

/-- Destructuring `{name, email, phone}` from the normalized body: only a
structured object yields properties; a string body yields `undefined` for
each. -/
def destructure : RawBody → Body
  | .obj b => b
  | _ => emptyBody

/-- The application as mounted: the `/api` middleware, then the router with
`POST /newUser`, `GET /allUsers` and `GET /saludo`. -/
def handleRequest (parse : String → Option Body) (method path : String)
    (raw : RawBody) (st : Store) : Response × Store :=
  match bodyMiddleware parse method raw with
  | .malformed => ({ status := 400, body := .malformed }, st)
  | .pass b =>
    if method = "POST" ∧ path = "/api/newUser" then
      newUser st (destructure b)
    else if method = "GET" ∧ path = "/api/allUsers" then
      (allUsers st, st)
    else if method = "GET" ∧ path = "/api/saludo" then
      ({ status := 200, body := .greeting }, st)
    else
      ({ status := 404, body := .notFound }, st)

/-- Accessor: the users listed in a response body, empty for other bodies. -/
def RespBody.users : RespBody → List User
  | .userList _ us => us
  | _ => []

/-- Accessor: the count field of a list response body, zero otherwise. -/
def RespBody.count : RespBody → Nat
  | .userList c _ => c
  | _ => 0

/-- The column set of a stored `users` row: the four declared attributes plus
the two automatic timestamps. There are no others. -/
inductive UserAttr where
  | id | name | email | phone | createdAt | updatedAt
deriving Repr, DecidableEq

/-- A serialized attribute value: integers and timestamps become numbers,
the rest are strings. -/
inductive AttrVal where
  | nat (n : Nat)
  | str (s : String)
deriving Repr, DecidableEq

/-- Reading one attribute of a stored row. -/
def attrValue (r : User) : UserAttr → AttrVal
  | .id => .nat r.id
  | .name => .str r.name
  | .email => .str r.email
  | .phone => .str r.phone
  | .createdAt => .nat r.createdAt
  | .updatedAt => .nat r.updatedAt

/-- The `attributes` option passed to `findAll` in the list handler. -/
def findAllAttributes : List UserAttr :=
  [.id, .name, .email, .phone, .createdAt, .updatedAt]

/-- The serialization of one returned user: the selected attributes paired
with their values, in selection order. -/
def projectRow (r : User) : List (UserAttr × AttrVal) :=
  findAllAttributes.map (fun a => (a, attrValue r a))

example : isEmail "ana@x.com" = true := by decide
example : isEmail "not-an-email" = false := by decide
example : isEmail "a b@x.com" = false := by decide
example : isEmail "" = false := by decide
example : hasContent "  " = false := by decide
example : hasContent "" = false := by decide
example : hasContent " a " = true := by decide
example :
    (newUser { rows := [], nextId := 1, now := 0 }
      { name := some "Ana", email := some "ana@x.com", phone := some "123" }).1.status
      = 201 := by decide

/-- A string accepted by the email validator is non-empty. -/
theorem isEmail_ne_empty {e : String} (h : isEmail e = true) : e ≠ "" := by
  intro he
  subst he
  exact absurd h (by decide)

/-- Claim C4: a create request in which any of name, email or phone is
missing or the empty string is answered with status 400 and the store is
unchanged: the handler returns before `User.create` is reached. -/
theorem newUser_missing_field_400 (st : Store) (b : Body)
    (h : truthy b.name = false ∨ truthy b.email = false ∨ truthy b.phone = false) :
    (newUser st b).1.status = 400 ∧ (newUser st b).2 = st := by
  rcases h with h | h | h <;> simp [newUser, h]

/-- Witness for claim C4 at a concrete request with no phone property. -/
theorem newUser_missing_field_400_witness :
    (truthy (Body.mk (some "Ana") (some "ana@x.com") none).name = false ∨
     truthy (Body.mk (some "Ana") (some "ana@x.com") none).email = false ∨
     truthy (Body.mk (some "Ana") (some "ana@x.com") none).phone = false) ∧
    ((newUser (Store.mk [] 1 0) (Body.mk (some "Ana") (some "ana@x.com") none)).1.status = 400 ∧
     (newUser (Store.mk [] 1 0) (Body.mk (some "Ana") (some "ana@x.com") none)).2 = Store.mk [] 1 0) :=
  ⟨by decide, newUser_missing_field_400 (Store.mk [] 1 0) (Body.mk (some "Ana") (some "ana@x.com") none) (by decide)⟩

/-- Claim C9: when the missing-field check rejects a create request, the 400
response body echoes the submitted name, email and phone values under the
received key. -/
theorem newUser_missing_field_echo (st : Store) (b : Body)
    (h : truthy b.name = false ∨ truthy b.email = false ∨ truthy b.phone = false) :
    (newUser st b).1 =
      { status := 400, body := .missingFields b.name b.email b.phone } := by
  rcases h with h | h | h <;> simp [newUser, h]

/-- Witness for claim C9 at a concrete request with an empty email. -/
theorem newUser_missing_field_echo_witness :
    (truthy (Body.mk (some "Bob") (some "") (some "77")).name = false ∨
     truthy (Body.mk (some "Bob") (some "") (some "77")).email = false ∨
     truthy (Body.mk (some "Bob") (some "") (some "77")).phone = false) ∧
    (newUser (Store.mk [] 5 9) (Body.mk (some "Bob") (some "") (some "77"))).1 =
      { status := 400, body := .missingFields (some "Bob") (some "") (some "77") } :=
  ⟨by decide, newUser_missing_field_echo (Store.mk [] 5 9) (Body.mk (some "Bob") (some "") (some "77")) (by decide)⟩

/-- Claim C3: a candidate with name, email and phone present and non-empty
but an email that does not match the pattern is rejected by the model
validators before any write occurs: status 400, a validation-details body
whose list names the email failure, and the store left unchanged. -/
theorem newUser_invalid_email_400 (st : Store) (n e p : String)
    (hn : n ≠ "") (he : e ≠ "") (hp : p ≠ "") (hem : isEmail e = false) :
    (newUser st (Body.mk (some n) (some e) (some p))).1 =
      { status := 400, body := .validationDetails (validationErrors n e p) } ∧
    isEmailMsg ∈ validationErrors n e p ∧
    (newUser st (Body.mk (some n) (some e) (some p))).2 = st := by
  refine ⟨?_, ?_, ?_⟩ <;>
    simp [newUser, truthy, User.create, validationErrors, hn, he, hp, hem]

/-- Witness for claim C3 at a concrete request with a malformed email. -/
theorem newUser_invalid_email_400_witness :
    (isEmail "not-an-email" = false) ∧
    ((newUser (Store.mk [] 1 0) (Body.mk (some "Ana") (some "not-an-email") (some "123"))).1 =
      { status := 400, body := .validationDetails (validationErrors "Ana" "not-an-email" "123") } ∧
     isEmailMsg ∈ validationErrors "Ana" "not-an-email" "123" ∧
     (newUser (Store.mk [] 1 0) (Body.mk (some "Ana") (some "not-an-email") (some "123"))).2 = Store.mk [] 1 0) :=
  ⟨by decide,
   newUser_invalid_email_400 (Store.mk [] 1 0)
     "Ana" "not-an-email" "123" (by decide) (by decide) (by decide) (by decide)⟩

/-- Counterexample for claim C1 as stated: a create request whose body has
non-empty name, email and phone and a well-shaped email is answered 409, not
201, when the store already holds a row with that email. -/
theorem newUser_valid_body_not_always_201 :
    (truthy (some "Bob") = true ∧ truthy (some "ana@x.com") = true ∧
     truthy (some "456") = true ∧ isEmail "ana@x.com" = true) ∧
    (newUser
        (Store.mk [User.mk 1 "Ana" "ana@x.com" "123" 0 0] 2 1)
        (Body.mk (some "Bob") (some "ana@x.com") (some "456"))).1.status = 409 ∧
    ¬ (newUser
        (Store.mk [User.mk 1 "Ana" "ana@x.com" "123" 0 0] 2 1)
        (Body.mk (some "Bob") (some "ana@x.com") (some "456"))).1.status = 201 := by
  decide

/-- Claim C1 (amended): a create request with non-empty name, email and phone,
a well-shaped email, and no stored row with that email, is answered 201 with
the created user: its fields equal the submitted values, its id is the next
generated integer, and the row is appended to the store. -/
theorem newUser_valid_fresh_201 (st : Store) (n e p : String)
    (hn : n ≠ "") (he : e ≠ "") (hp : p ≠ "") (hem : isEmail e = true)
    (hfresh : st.rows.any (fun r => decide (r.email = e)) = false) :
    newUser st (Body.mk (some n) (some e) (some p)) =
      ({ status := 201,
         body := .created (User.mk st.nextId n e p st.now st.now) },
       Store.mk (st.rows ++ [User.mk st.nextId n e p st.now st.now])
         (st.nextId + 1) (st.now + 1)) := by
  simp [newUser, truthy, User.create, validationErrors, hn, he, hp, hem, hfresh]

/-- Witness for the amended claim C1 at a concrete fresh request. -/
theorem newUser_valid_fresh_201_witness :
    ("Ana" ≠ "" ∧ "ana@x.com" ≠ "" ∧ "123" ≠ "" ∧ isEmail "ana@x.com" = true ∧
     (Store.mk [] 1 0).rows.any (fun r => decide (r.email = "ana@x.com")) = false) ∧
    newUser (Store.mk [] 1 0) (Body.mk (some "Ana") (some "ana@x.com") (some "123")) =
      ({ status := 201, body := .created (User.mk 1 "Ana" "ana@x.com" "123" 0 0) },
       Store.mk [User.mk 1 "Ana" "ana@x.com" "123" 0 0] 2 1) :=
  ⟨by decide,
   newUser_valid_fresh_201 (Store.mk [] 1 0) "Ana" "ana@x.com" "123"
     (by decide) (by decide) (by decide) (by decide) (by decide)⟩

/-- Counterexample for claim C2 as stated: after a first successful create,
a second create request carrying the same email but an empty name is answered
400 (the missing-field check), not 409. -/
theorem second_create_same_email_not_always_409 :
    (newUser (Store.mk [] 1 0)
        (Body.mk (some "Ana") (some "ana@x.com") (some "123"))).1.status = 201 ∧
    (newUser (Store.mk [] 1 0)
        (Body.mk (some "Ana") (some "ana@x.com") (some "123"))).2 =
      Store.mk [User.mk 1 "Ana" "ana@x.com" "123" 0 0] 2 1 ∧
    (newUser (Store.mk [User.mk 1 "Ana" "ana@x.com" "123" 0 0] 2 1)
        (Body.mk (some "") (some "ana@x.com") (some "1"))).1.status = 400 ∧
    ¬ (newUser (Store.mk [User.mk 1 "Ana" "ana@x.com" "123" 0 0] 2 1)
        (Body.mk (some "") (some "ana@x.com") (some "1"))).1.status = 409 := by
  decide

/-- Claim C2 (amended): when the store already holds a row with a given email
and a create request carries that same email together with a truthy name and
phone, the request is answered 409 and the store is unchanged: no second row
with that email is created. -/
theorem newUser_duplicate_email_409 (st : Store) (b : Body) (e : String)
    (hdup : st.rows.any (fun r => decide (r.email = e)) = true)
    (hbe : b.email = some e) (hem : isEmail e = true)
    (hn : truthy b.name = true) (hp : truthy b.phone = true) :
    (newUser st b).1.status = 409 ∧ (newUser st b).2 = st := by
  obtain ⟨bn, be, bp⟩ := b
  obtain ⟨n, rfl, hn'⟩ : ∃ n, bn = some n ∧ n ≠ "" := by
    cases bn with
    | none => exact absurd hn (by simp [truthy])
    | some n => exact ⟨n, rfl, by simpa [truthy] using hn⟩
  obtain ⟨p, rfl, hp'⟩ : ∃ p, bp = some p ∧ p ≠ "" := by
    cases bp with
    | none => exact absurd hp (by simp [truthy])
    | some p => exact ⟨p, rfl, by simpa [truthy] using hp⟩
  have hbe' : be = some e := hbe
  subst hbe'
  have he : e ≠ "" := isEmail_ne_empty hem
  constructor <;>
    simp [newUser, truthy, User.create, validationErrors, hn', he, hp', hem, hdup]

/-- Witness for the amended claim C2: a second well-formed create with the
already-stored email answers 409 and leaves the single row in place. -/
theorem newUser_duplicate_email_409_witness :
    ((Store.mk [User.mk 1 "Ana" "ana@x.com" "123" 0 0] 2 1).rows.any
        (fun r => decide (r.email = "ana@x.com")) = true ∧
     isEmail "ana@x.com" = true ∧
     truthy (Body.mk (some "Bob") (some "ana@x.com") (some "456")).name = true ∧
     truthy (Body.mk (some "Bob") (some "ana@x.com") (some "456")).phone = true) ∧
    (newUser (Store.mk [User.mk 1 "Ana" "ana@x.com" "123" 0 0] 2 1)
        (Body.mk (some "Bob") (some "ana@x.com") (some "456"))).1.status = 409 ∧
    (newUser (Store.mk [User.mk 1 "Ana" "ana@x.com" "123" 0 0] 2 1)
        (Body.mk (some "Bob") (some "ana@x.com") (some "456"))).2 =
      Store.mk [User.mk 1 "Ana" "ana@x.com" "123" 0 0] 2 1 :=
  ⟨by decide,
   newUser_duplicate_email_409 (Store.mk [User.mk 1 "Ana" "ana@x.com" "123" 0 0] 2 1)
     (Body.mk (some "Bob") (some "ana@x.com") (some "456")) "ana@x.com"
     (by decide) rfl (by decide) (by decide) (by decide)⟩

/-- Claim C5: for every state of the store the list handler returns every
stored row, ordered by createdAt descending (most recent first), and the
count field equals the number of users returned. -/
theorem allUsers_complete_ordered_counted (st : Store) :
    ((allUsers st).body.users).Perm st.rows ∧
    List.Pairwise (fun a b => b.createdAt ≤ a.createdAt) ((allUsers st).body.users) ∧
    (allUsers st).body.count = ((allUsers st).body.users).length := by
  have husers : (allUsers st).body.users = User.findAll st := rfl
  refine ⟨?_, ?_, rfl⟩
  · rw [husers]
    exact List.mergeSort_perm st.rows _
  · rw [husers]
    have h := @List.sorted_mergeSort User
      (fun a b => decide (b.createdAt ≤ a.createdAt))
      (fun a b c hab hbc => by
        simp only [decide_eq_true_eq] at *
        exact le_trans hbc hab)
      (fun a b => by
        simp only [Bool.or_eq_true, decide_eq_true_eq]
        exact Nat.le_total b.createdAt a.createdAt)
      st.rows
    exact h.imp (fun hab => by simpa using hab)

/-- Claim C10: every user returned by the list operation is serialized with
exactly the six selected attributes id, name, email, phone, createdAt and
updatedAt: the key list equals the selection, every attribute of the stored
row appears, no key repeats, and each value is the value of the stored row. -/
theorem allUsers_six_attributes (st : Store) (u : User)
    (hu : u ∈ (allUsers st).body.users) :
    ((projectRow u).map Prod.fst = findAllAttributes) ∧
    (∀ a : UserAttr, a ∈ (projectRow u).map Prod.fst) ∧
    ((projectRow u).map Prod.fst).Nodup ∧
    (∀ a : UserAttr, (projectRow u).lookup a = some (attrValue u a)) := by
  have hkeys : (projectRow u).map Prod.fst = findAllAttributes := by
    simp [projectRow, findAllAttributes]
  refine ⟨hkeys, ?_, ?_, ?_⟩
  · intro a
    rw [hkeys]
    cases a <;> simp [findAllAttributes]
  · rw [hkeys]
    decide
  · intro a
    cases a <;> rfl

/-- Witness for claim C10 at a store holding a single concrete row. -/
theorem allUsers_six_attributes_witness :
    (User.mk 1 "Ana" "ana@x.com" "123" 0 0 ∈
      (allUsers (Store.mk [User.mk 1 "Ana" "ana@x.com" "123" 0 0] 2 1)).body.users) ∧
    ((projectRow (User.mk 1 "Ana" "ana@x.com" "123" 0 0)).map Prod.fst = findAllAttributes ∧
     (∀ a : UserAttr,
        a ∈ (projectRow (User.mk 1 "Ana" "ana@x.com" "123" 0 0)).map Prod.fst) ∧
     ((projectRow (User.mk 1 "Ana" "ana@x.com" "123" 0 0)).map Prod.fst).Nodup ∧
     (∀ a : UserAttr,
        (projectRow (User.mk 1 "Ana" "ana@x.com" "123" 0 0)).lookup a =
          some (attrValue (User.mk 1 "Ana" "ana@x.com" "123" 0 0) a))) := by
  have hmem : User.mk 1 "Ana" "ana@x.com" "123" 0 0 ∈
      (allUsers (Store.mk [User.mk 1 "Ana" "ana@x.com" "123" 0 0] 2 1)).body.users := by
    simp [allUsers, RespBody.users, User.findAll]
  exact ⟨hmem, allUsers_six_attributes _ _ hmem⟩

/-- Claim C6: a POST whose raw buffer body decodes to empty or
whitespace-only text is normalized to the empty object rather than a parse
error, and the create request then fails the missing-field validation with
status 400, the store untouched. -/
theorem post_blank_buffer_validation_400 (parse : String → Option Body)
    (st : Store) (s : String) (h : hasContent s = false) :
    bodyMiddleware parse "POST" (.buffer s) = .pass (.obj emptyBody) ∧
    handleRequest parse "POST" "/api/newUser" (.buffer s) st =
      ({ status := 400, body := .missingFields none none none }, st) := by
  have hmw : bodyMiddleware parse "POST" (.buffer s) = .pass (.obj emptyBody) := by
    simp [bodyMiddleware, methodsWithBody, h]
  refine ⟨hmw, ?_⟩
  simp [handleRequest, hmw, destructure, newUser, emptyBody, truthy]

/-- Witness for claim C6 at the empty buffer on the create route. -/
theorem post_blank_buffer_validation_400_witness :
    (hasContent "" = false) ∧
    (bodyMiddleware (fun _ => none) "POST" (.buffer "") = .pass (.obj emptyBody) ∧
     handleRequest (fun _ => none) "POST" "/api/newUser" (.buffer "") (Store.mk [] 1 0) =
       ({ status := 400, body := .missingFields none none none }, Store.mk [] 1 0)) :=
  ⟨by decide,
   post_blank_buffer_validation_400 (fun _ => none) (Store.mk [] 1 0) "" (by decide)⟩

/-- Claim C7: a POST whose raw buffer body has non-blank text on which JSON
parsing fails is answered 400 with the malformed-body error and nothing else
happens: no route handler runs and the store is returned unchanged. -/
theorem post_malformed_buffer_400 (parse : String → Option Body)
    (path : String) (st : Store) (s : String)
    (h1 : hasContent s = true) (h2 : parse s = none) :
    handleRequest parse "POST" path (.buffer s) st =
      ({ status := 400, body := .malformed }, st) := by
  simp [handleRequest, bodyMiddleware, methodsWithBody, h1, h2]

/-- Witness for claim C7 at a concrete unparseable body. -/
theorem post_malformed_buffer_400_witness :
    (hasContent "not json" = true ∧ (fun _ => (none : Option Body)) "not json" = none) ∧
    handleRequest (fun _ => none) "POST" "/api/newUser" (.buffer "not json") (Store.mk [] 1 0) =
      ({ status := 400, body := .malformed }, Store.mk [] 1 0) :=
  ⟨⟨by decide, rfl⟩,
   post_malformed_buffer_400 (fun _ => none) "/api/newUser" (Store.mk [] 1 0)
     "not json" (by decide) rfl⟩

/-- Counterexample for claim C8 as stated: a POST whose body is already a
string, namely the empty string, is not passed through unchanged: the
middleware replaces it with the empty object. -/
theorem post_empty_string_body_replaced :
    bodyMiddleware (fun _ => none) "POST" (.str "") = .pass (.obj emptyBody) ∧
    NormResult.pass (.obj emptyBody) ≠ NormResult.pass (.str "") := by
  exact ⟨rfl, by decide⟩

/-- Claim C8 (amended): the decode-and-parse step runs only for POST, PUT or
PATCH requests whose body is a raw buffer: for every other request the
outcome does not depend on the parser and is pass-through unchanged, except
that a POST, PUT or PATCH request whose body is falsy (absent or the empty
string) receives the empty object; in particular a buffer body on any other
method, GET included, is never rejected by the normalizer. -/
theorem bodyMiddleware_parse_scope (parse parse2 : String → Option Body)
    (method : String) (raw : RawBody)
    (h : methodsWithBody.contains method = false ∨ ∀ s, raw ≠ .buffer s) :
    bodyMiddleware parse method raw = bodyMiddleware parse2 method raw ∧
    bodyMiddleware parse method raw =
      (if methodsWithBody.contains method = true ∧ raw.truthy = false
       then .pass (.obj emptyBody) else .pass raw) := by
  rcases h with hm | hraw
  · have hm2 : ¬ method ∈ methodsWithBody := by simpa using hm
    constructor <;> simp [bodyMiddleware, hm2]
  · cases raw with
    | buffer s => exact absurd rfl (hraw s)
    | str s =>
      by_cases hm2 : method ∈ methodsWithBody
      · by_cases hs : s = "" <;>
          constructor <;> simp [bodyMiddleware, RawBody.truthy, hm2, hs]
      · constructor <;> simp [bodyMiddleware, RawBody.truthy, hm2]
    | obj b =>
      by_cases hm2 : method ∈ methodsWithBody
      · constructor <;> simp [bodyMiddleware, RawBody.truthy, hm2]
      · constructor <;> simp [bodyMiddleware, RawBody.truthy, hm2]
    | absent =>
      by_cases hm2 : method ∈ methodsWithBody
      · constructor <;> simp [bodyMiddleware, RawBody.truthy, hm2]
      · constructor <;> simp [bodyMiddleware, RawBody.truthy, hm2]

/-- Witness for the amended claim C8: a GET with an unparseable buffer body
passes through untouched under two different parsers. -/
theorem bodyMiddleware_parse_scope_witness :
    (methodsWithBody.contains "GET" = false) ∧
    (bodyMiddleware (fun _ => some emptyBody) "GET" (.buffer "xx") =
       bodyMiddleware (fun _ => none) "GET" (.buffer "xx") ∧
     bodyMiddleware (fun _ => some emptyBody) "GET" (.buffer "xx") =
      (if methodsWithBody.contains "GET" = true ∧ (RawBody.buffer "xx").truthy = false
       then .pass (.obj emptyBody) else .pass (.buffer "xx"))) :=
  ⟨by decide,
   bodyMiddleware_parse_scope (fun _ => some emptyBody) (fun _ => none) "GET"
     (.buffer "xx") (Or.inl (by decide))⟩
